import Mathlib

/-!
Shallow embedding of the AEGIS fraud-detection core (`src/server.js`).

Machine numbers are modelled as `ℚ` (JS numbers; all arithmetic reached by
the verified claims is exact in doubles), JS string maps (`Map` objects and
plain objects used as dictionaries) as association lists in insertion order,
and the two sources of nondeterminism (the wall clock and `Math.random`) as
explicit parameters.  The exception flow of `performFraudAnalysis` is
modelled with `Except`: the `try` body is `performFraudAnalysisTry`, and the
`catch` clause substitutes the fallback verdict.
-/

namespace FraudServer

/-- A parsed JSON value, restricted to the shapes the server inspects. -/
inductive JVal where
  | num (q : ℚ)
  | str (s : String)
  | other
  deriving DecidableEq

/-- A transaction as accepted by the `validateTransaction` middleware.
`timestamp` is epoch milliseconds (JS `Date`). -/
structure Transaction where
  amount : ℚ
  currency : String
  merchant : String
  cardType : String
  location : String
  userId : String
  timestamp : ℤ
  deriving DecidableEq

/-- The five pre-analysis risk signals of `calculatePreAnalysisRisk`. -/
structure PreAnalysisRisk where
  amountAnomaly : ℚ
  locationAnomaly : ℚ
  timeAnomaly : ℚ
  velocityRisk : ℚ
  merchantRisk : ℚ
  deriving DecidableEq

/-- The canonical verdict object.  Fields that the oracle path may leave
absent on a JS object are `Option`-typed; `fallback` is `false` when the
property is absent (JS `undefined` is falsy). -/
structure RiskAnalysis where
  riskScore : ℚ
  status : String
  summary : Option JVal
  confidence : Option JVal
  riskFactors : List (String × ℚ)
  recommendations : Option (List String)
  alertLevel : Option JVal
  timestamp : Option String
  transactionId : Option String
  processingTime : Option ℚ
  version : Option String
  preAnalysisRisk : Option PreAnalysisRisk
  fallback : Bool
  deriving DecidableEq

/-- A parsed oracle reply before validation: every expected property may be
absent or of the wrong JSON type. -/
structure OracleReply where
  riskScore : Option JVal
  summary : Option JVal
  status : Option JVal
  confidence : Option JVal
  riskFactors : Option (List (String × ℚ))
  recommendations : Option (List String)
  alertLevel : Option JVal
  deriving DecidableEq

/-- Outcome of the oracle round trip up to `JSON.parse`:
a transport/timeout error, an unparseable reply, or a parsed object. -/
inductive OracleOutcome where
  | transportError
  | unparseable
  | reply (r : OracleReply)
  deriving DecidableEq

/-- A per-user risk profile (`createUserProfile` / `updateUserProfile`). -/
structure UserProfile where
  userId : String
  riskLevel : String
  totalTransactions : ℕ
  suspiciousTransactions : ℕ
  recentSuspiciousActivity : Bool
  createdAt : String
  lastUpdated : String
  deriving DecidableEq

/-- An entry of the fraud-pattern cache (`updateFraudPatterns`). -/
structure FraudPatternEntry where
  count : ℕ
  avgRisk : ℚ
  lastSeen : String
  deriving DecidableEq

/-- One record of the transaction ledger (`transactionHistory`). -/
structure LedgerRecord where
  txn : Transaction
  analysis : RiskAnalysis
  deriving DecidableEq

/-- The three shared in-memory stores of the server. -/
structure EngineState where
  transactionHistory : List LedgerRecord
  fraudPatterns : List (String × FraudPatternEntry)
  userRiskProfiles : List (String × UserProfile)
  deriving DecidableEq

/-- The clock/randomness inputs an `analyze` call reads from the runtime:
`new Date().toISOString()`, `Date.now()`, the random id suffix and the
`Math.random()` draw used for the simulated processing time. -/
structure AnalysisEnv where
  nowIso : String
  nowMs : ℤ
  randSuffix : String
  randDraw : ℚ
  deriving DecidableEq

/-- Lookup in a JS `Map`/object modelled as an association list. -/
def jsLookup {α : Type} : List (String × α) → String → Option α
  | [], _ => none
  | (k', v) :: rest, k => if k' = k then some v else jsLookup rest k

/-- JS `Map.set`: overwrite in place, or append a new key at the end. -/
def mapSet {α : Type} : List (String × α) → String → α → List (String × α)
  | [], k, v => [(k, v)]
  | (k', v') :: rest, k, v =>
      if k' = k then (k, v) :: rest else (k', v') :: mapSet rest k v

/-- Does `pat` occur at the head of `l`? (helper for `includesList`) -/
def startsWithList : List Char → List Char → Bool
  | [], _ => true
  | _ :: _, [] => false
  | a :: as, b :: bs => a == b && startsWithList as bs

/-- JS `String.prototype.includes` on character lists. -/
def includesList (pat : List Char) : List Char → Bool
  | [] => pat.isEmpty
  | b :: bs => startsWithList pat (b :: bs) || includesList pat bs

/-- JS `hay.includes(needle)`. -/
def includesStr (hay needle : String) : Bool :=
  includesList needle.toList hay.toList

/-- JS `toLowerCase` (character-wise; the denylists are ASCII). -/
def toLowerStr (s : String) : String :=
  String.mk (s.toList.map Char.toLower)

/-- JS `risks.some(risk => merchant.toLowerCase().includes(risk))`. -/
def merchantHasRisk (merchant : String) (risks : List String) : Bool :=
  risks.any (fun risk => includesStr (toLowerStr merchant) risk)

/-- The `validateTransaction` middleware's acceptance predicate. -/
def validTransaction (t : Transaction) : Bool :=
  decide (t.amount > 0) &&
  ["USD", "EUR", "GBP", "JPY", "CAD", "AUD"].contains t.currency &&
  decide (2 ≤ t.merchant.length) &&
  ["credit", "debit", "prepaid"].contains t.cardType &&
  decide (2 ≤ t.location.length) &&
  decide (3 ≤ t.userId.length)

/-- Count occurrences keyed by a string, preserving first-seen key order
(JS object property-insertion order). -/
def bumpCount : List (String × ℕ) → String → List (String × ℕ)
  | [], k => [(k, 1)]
  | (k', c) :: rest, k =>
      if k' = k then (k', c + 1) :: rest else (k', c) :: bumpCount rest k

/-- Stable insertion for a descending-by-count sort (JS stable `sort` with
comparator `(a, b) => b[1] - a[1]`). -/
def insertDesc (x : String × ℕ) : List (String × ℕ) → List (String × ℕ)
  | [] => [x]
  | y :: ys => if y.2 ≥ x.2 then y :: insertDesc x ys else x :: y :: ys

/-- Stable sort, larger counts first. -/
def sortByCountDesc (l : List (String × ℕ)) : List (String × ℕ) :=
  l.foldl (fun acc x => insertDesc x acc) []

/-- Source `getMostCommonLocations`: top three most frequent locations. -/
def getMostCommonLocations (transactions : List Transaction) : List String :=
  let locationCounts := transactions.foldl (fun acc t => bumpCount acc t.location) []
  ((sortByCountDesc locationCounts).take 3).map (·.1)

/-- The denylist used by `calculatePreAnalysisRisk`. -/
def preRiskMerchants : List String := ["casino", "betting", "crypto", "atm", "wire transfer"]

/-- The denylist used by `generateFallbackAnalysis`. -/
def fallbackRiskMerchants : List String := ["casino", "betting", "crypto"]

/-- Source `calculatePreAnalysisRisk(transaction, userHistory, userProfile)`.
`hour` is `new Date().getHours()` and `nowMs` is `Date.now()`, both read at
analysis time.  (The `userProfile` argument is unused, as in the source.) -/
def calculatePreAnalysisRisk (t : Transaction) (userHistory : List Transaction)
    (_userProfile : UserProfile) (hour : ℕ) (nowMs : ℤ) : PreAnalysisRisk :=
  let withHist : PreAnalysisRisk :=
    if userHistory.length > 0 then
      let avgAmount := (userHistory.map (·.amount)).sum / (userHistory.length : ℚ)
      let amountDeviation := |t.amount - avgAmount| / avgAmount
      let commonLocations := getMostCommonLocations userHistory
      let recentTransactions := userHistory.filter (fun h => h.timestamp > nowMs - 3600000)
      { amountAnomaly := min (amountDeviation * 50) 100
        locationAnomaly := if commonLocations.contains t.location then 0 else 60
        timeAnomaly := 0
        velocityRisk := min ((recentTransactions.length : ℚ) * 25) 100
        merchantRisk := 0 }
    else
      { amountAnomaly := 0, locationAnomaly := 0, timeAnomaly := 0,
        velocityRisk := 0, merchantRisk := 0 }
  { withHist with
    timeAnomaly := if hour < 6 ∨ hour > 23 then 40 else 0
    merchantRisk := if merchantHasRisk t.merchant preRiskMerchants then 80 else 20 }

/-- Source `createUserProfile(userId)` (the fresh profile object). -/
def createUserProfile (userId : String) (nowIso : String) : UserProfile :=
  { userId := userId
    riskLevel := "LOW"
    totalTransactions := 0
    suspiciousTransactions := 0
    recentSuspiciousActivity := false
    createdAt := nowIso
    lastUpdated := nowIso }

/-- Source `isValidAnalysis(analysis)`: the four required properties exist,
`riskScore` is a number in `[0, 100]`, and `status` is one of the three
allowed strings. -/
def isValidAnalysis (analysis : OracleReply) : Bool :=
  analysis.riskScore.isSome && analysis.summary.isSome &&
  analysis.status.isSome && analysis.riskFactors.isSome &&
  (match analysis.riskScore with
   | some (.num q) => decide (0 ≤ q) && decide (q ≤ 100)
   | _ => false) &&
  (match analysis.status with
   | some (.str s) => ["Approved", "Flagged", "Denied"].contains s
   | _ => false)

/-- The `defaultRiskFactors` object of `enhanceAnalysis`. -/
def defaultRiskFactors : List (String × ℚ) :=
  [("LocationAnomaly", 0), ("AmountDeviation", 0), ("MerchantRisk", 0),
   ("TimePattern", 0), ("CardUsage", 0), ("UserBehavior", 0), ("VelocityCheck", 0)]

/-- JS object spread `{ ...base, ...extra }`: base keys in place (values
overridden by `extra` where present), then `extra`'s new keys appended. -/
def jsUnion (base extra : List (String × ℚ)) : List (String × ℚ) :=
  base.map (fun kv => (kv.1, (jsLookup extra kv.1).getD kv.2)) ++
  extra.filter (fun kv => (jsLookup base kv.1).isNone)

/-- Source `generateTransactionId()`, i.e. the TXN prefix, then `Date.now()`, then the random suffix. -/
def generateTransactionId (nowMs : ℤ) (suffix : String) : String :=
  "TXN-" ++ toString nowMs ++ "-" ++ suffix

/-- Source `enhanceAnalysis(analysis, transaction, preAnalysis)`: stamps metadata
onto the validated oracle reply and completes the risk-factor map.  The
`riskScore`/`status` extractions are total here; `performFraudAnalysis`
only calls this after `isValidAnalysis` succeeded, so they never take the
default branch on the orchestrated path. -/
def enhanceAnalysis (analysis : OracleReply) (preAnalysis : PreAnalysisRisk)
    (env : AnalysisEnv) : RiskAnalysis :=
  { riskScore := match analysis.riskScore with
      | some (.num q) => q
      | _ => 0
    status := match analysis.status with
      | some (.str s) => s
      | _ => ""
    summary := analysis.summary
    confidence := analysis.confidence
    riskFactors := jsUnion defaultRiskFactors (analysis.riskFactors.getD [])
    recommendations := analysis.recommendations
    alertLevel := analysis.alertLevel
    timestamp := some env.nowIso
    transactionId := some (generateTransactionId env.nowMs env.randSuffix)
    processingTime := some (env.randDraw * 500 + 100)
    version := some "2.1"
    preAnalysisRisk := some preAnalysis
    fallback := false }

/-- Source `updateUserProfile(userId, transaction, analysis)`. -/
def updateUserProfile (userId : String) (_t : Transaction) (analysis : RiskAnalysis)
    (nowIso : String) (profiles : List (String × UserProfile)) :
    List (String × UserProfile) :=
  let profile := (jsLookup profiles userId).getD (createUserProfile userId nowIso)
  let p1 := { profile with
    totalTransactions := profile.totalTransactions + 1
    lastUpdated := nowIso }
  let p2 := if analysis.riskScore > 70 then
      { p1 with
        suspiciousTransactions := p1.suspiciousTransactions + 1
        recentSuspiciousActivity := true }
    else p1
  let suspiciousRatio : ℚ := (p2.suspiciousTransactions : ℚ) / (p2.totalTransactions : ℚ)
  let p3 := { p2 with
    riskLevel := if suspiciousRatio > 0.3 then "HIGH"
      else if suspiciousRatio > 0.1 then "MEDIUM" else "LOW" }
  mapSet profiles userId p3

/-- JS `Math.floor` on an exact rational. -/
def ratFloor (q : ℚ) : ℤ :=
  q.num.fdiv (q.den : ℤ)

/-- The pattern key, merchant then location then the amount bucket floor(amount/100)*100, dash-separated. -/
def patternKey (t : Transaction) : String :=
  t.merchant ++ "-" ++ t.location ++ "-" ++ toString (ratFloor (t.amount / 100) * 100)

/-- Source `updateFraudPatterns(transaction, analysis)`. -/
def updateFraudPatterns (t : Transaction) (analysis : RiskAnalysis)
    (nowIso : String) (patterns : List (String × FraudPatternEntry)) :
    List (String × FraudPatternEntry) :=
  if analysis.riskScore > 80 then
    let existingPattern := (jsLookup patterns (patternKey t)).getD
      { count := 0, avgRisk := 0, lastSeen := "" }
    mapSet patterns (patternKey t)
      { count := existingPattern.count + 1
        avgRisk := (existingPattern.avgRisk + analysis.riskScore) / 2
        lastSeen := nowIso }
  else patterns

/-- Source `generateFallbackAnalysis(transaction)`; `hour` is
`new Date().getHours()` read inside the function. -/
def generateFallbackAnalysis (t : Transaction) (hour : ℕ) : RiskAnalysis :=
  let riskScore1 : ℚ := if t.amount > 5000 then 20 + 30
    else if t.amount > 1000 then 20 + 15 else 20
  let riskScore2 := if hour < 6 ∨ hour > 22 then riskScore1 + 20 else riskScore1
  let riskScore3 := if merchantHasRisk t.merchant fallbackRiskMerchants then
      riskScore2 + 40
    else riskScore2
  let status := if riskScore3 > 70 then "Denied"
    else if riskScore3 > 40 then "Flagged" else "Approved"
  { riskScore := min riskScore3 100
    status := status
    summary := some (.str ("Fallback analysis: " ++ status ++ " based on rule-based evaluation"))
    confidence := some (.num 75)
    riskFactors :=
      [("LocationAnomaly", 25),
       ("AmountDeviation", if t.amount > 1000 then 60 else 20),
       ("MerchantRisk", 30),
       ("TimePattern", if hour < 6 ∨ hour > 22 then 70 else 10),
       ("CardUsage", 20),
       ("UserBehavior", 25),
       ("VelocityCheck", 15)]
    recommendations := some ["Manual review recommended", "Verify user identity"]
    alertLevel := some (.str (if riskScore3 > 70 then "HIGH"
      else if riskScore3 > 40 then "MEDIUM" else "LOW"))
    timestamp := none
    transactionId := none
    processingTime := none
    version := none
    preAnalysisRisk := none
    fallback := true }

/-- The user's transaction history, as filtered from the ledger. -/
def historyFor (st : EngineState) (uid : String) : List Transaction :=
  (st.transactionHistory.filter (fun r => r.txn.userId == uid)).map (·.txn)

/-- The profile store after the `get(...) || createUserProfile(...)` step:
`createUserProfile` inserts the fresh profile into the map as a side
effect, and this insertion persists even if the oracle call later throws. -/
def profilesAfterLookup (st : EngineState) (uid : String) (nowIso : String) :
    List (String × UserProfile) :=
  match jsLookup st.userRiskProfiles uid with
  | some _ => st.userRiskProfiles
  | none => mapSet st.userRiskProfiles uid (createUserProfile uid nowIso)

/-- The body of the `try` block of `performFraudAnalysis`: a thrown JS
exception is an `Except.error`.  The oracle call and `JSON.parse` are the
`transportError`/`unparseable` outcomes; a reply failing `isValidAnalysis`
raises `Invalid analysis response format`. -/
def performFraudAnalysisTry (t : Transaction) (hour : ℕ) (nowMs : ℤ)
    (env : AnalysisEnv) (oracle : OracleOutcome) (st : EngineState) :
    Except String (RiskAnalysis × EngineState) :=
  let userHistory := historyFor st t.userId
  let userProfile := (jsLookup st.userRiskProfiles t.userId).getD
    (createUserProfile t.userId env.nowIso)
  let profiles0 := profilesAfterLookup st t.userId env.nowIso
  let preAnalysis := calculatePreAnalysisRisk t userHistory userProfile hour nowMs
  match oracle with
  | .transportError => .error "oracle transport failure"
  | .unparseable => .error "reply parse failure"
  | .reply analysis =>
    if isValidAnalysis analysis then
      let enhancedAnalysis := enhanceAnalysis analysis preAnalysis env
      let profiles1 := updateUserProfile t.userId t enhancedAnalysis env.nowIso profiles0
      let patterns1 := updateFraudPatterns t enhancedAnalysis env.nowIso st.fraudPatterns
      .ok (enhancedAnalysis,
        { transactionHistory := st.transactionHistory
          fraudPatterns := patterns1
          userRiskProfiles := profiles1 })
    else
      .error "Invalid analysis response format"

/-- Source `performFraudAnalysis(transactionData)`: the `catch` clause recovers
every thrown error by substituting the fallback verdict.  The profile
insertion performed before the oracle call survives into the catch state. -/
def performFraudAnalysis (t : Transaction) (hour : ℕ) (nowMs : ℤ)
    (env : AnalysisEnv) (oracle : OracleOutcome) (st : EngineState) :
    RiskAnalysis × EngineState :=
  match performFraudAnalysisTry t hour nowMs env oracle st with
  | .ok v => v
  | .error _ =>
    (generateFallbackAnalysis t hour,
     { st with userRiskProfiles := profilesAfterLookup st t.userId env.nowIso })

/-- Predicate `oracleAccepted` holds when the reply parses and passes validation,
i.e. exactly when the oracle path (not the fallback) produces the verdict. -/
def oracleAccepted : OracleOutcome → Bool
  | .reply r => isValidAnalysis r
  | _ => false

/-- The aggregate snapshot computed by the `/api/stats` route. -/
structure FraudStats where
  totalTransactions : ℕ
  approvedTransactions : ℕ
  flaggedTransactions : ℕ
  deniedTransactions : ℕ
  averageRiskScore : ℚ
  uniqueUsers : ℕ
  fraudPatternsDetected : ℕ
  highRiskUsers : ℕ
  deriving DecidableEq

/-- The `/api/stats` computation over the three stores. -/
def computeStats (st : EngineState) : FraudStats :=
  { totalTransactions := st.transactionHistory.length
    approvedTransactions :=
      (st.transactionHistory.filter (fun r => r.analysis.status == "Approved")).length
    flaggedTransactions :=
      (st.transactionHistory.filter (fun r => r.analysis.status == "Flagged")).length
    deniedTransactions :=
      (st.transactionHistory.filter (fun r => r.analysis.status == "Denied")).length
    averageRiskScore := if st.transactionHistory.length > 0 then
        (st.transactionHistory.map (fun r => r.analysis.riskScore)).sum /
          (st.transactionHistory.length : ℚ)
      else 0
    uniqueUsers := ((st.transactionHistory.map (fun r => r.txn.userId)).eraseDups).length
    fraudPatternsDetected := st.fraudPatterns.length
    highRiskUsers :=
      (st.userRiskProfiles.filter (fun kv => kv.2.riskLevel == "HIGH")).length }

/-- Profile accessors used to state the store-level properties. -/
def profileTotal (m : List (String × UserProfile)) (uid : String) : ℕ :=
  ((jsLookup m uid).map (·.totalTransactions)).getD 0

def profileSusp (m : List (String × UserProfile)) (uid : String) : ℕ :=
  ((jsLookup m uid).map (·.suspiciousTransactions)).getD 0

def profileSticky (m : List (String × UserProfile)) (uid : String) : Bool :=
  ((jsLookup m uid).map (·.recentSuspiciousActivity)).getD false

def profileLevel (m : List (String × UserProfile)) (uid : String) : String :=
  ((jsLookup m uid).map (·.riskLevel)).getD "LOW"

/-- A whole sequence of analyzed outcomes recorded for one user. -/
def applyOutcomes (uid : String) (t : Transaction) (nowIso : String)
    (as : List RiskAnalysis) (m : List (String × UserProfile)) :
    List (String × UserProfile) :=
  as.foldl (fun m a => updateUserProfile uid t a nowIso m) m

/-- Modelled from the spec: the acceptance conditions C6 names for an
oracle reply (parseable, `riskScore` a number in `[0, 100]`, `status` among
the three allowed values) — to be compared with `isValidAnalysis`. -/
def specAcceptsReply (r : OracleReply) : Bool :=
  (match r.riskScore with
   | some (.num q) => decide (0 ≤ q) && decide (q ≤ 100)
   | _ => false) &&
  (match r.status with
   | some (.str s) => ["Approved", "Flagged", "Denied"].contains s
   | _ => false)

/-- Concrete fixtures used by the scenario theorems. -/
def tBestBuy : Transaction :=
  { amount := 2500, currency := "USD", merchant := "Best Buy",
    cardType := "credit", location := "New York", userId := "user123",
    timestamp := 0 }

def tCasino : Transaction :=
  { amount := 6000, currency := "USD", merchant := "Casino Royale",
    cardType := "credit", location := "Las Vegas", userId := "user999",
    timestamp := 0 }

def env0 : AnalysisEnv :=
  { nowIso := "2024-01-01T00:00:00.000Z", nowMs := 1700000000000,
    randSuffix := "A1B2C3", randDraw := 1/2 }

def st0 : EngineState :=
  { transactionHistory := [], fraudPatterns := [], userRiskProfiles := [] }

/-- A minimal verdict carrying a given risk score (for store-level tests). -/
def mkVerdict (q : ℚ) : RiskAnalysis :=
  { riskScore := q, status := "Denied", summary := none, confidence := none,
    riskFactors := [], recommendations := none, alertLevel := none,
    timestamp := none, transactionId := none, processingTime := none,
    version := none, preAnalysisRisk := none, fallback := false }

/-- A well-formed oracle reply accepted by validation. -/
def rValid : OracleReply :=
  { riskScore := some (.num 42), summary := some (.str "within pattern"),
    status := some (.str "Approved"), confidence := some (.num 90),
    riskFactors := some [("LocationAnomaly", 10)],
    recommendations := some ["ok"], alertLevel := some (.str "LOW") }

/-- A reply meeting the spec's three acceptance conditions but lacking the
`summary` property the code also requires. -/
def rNoSummary : OracleReply :=
  { riskScore := some (.num 50), summary := none,
    status := some (.str "Approved"), confidence := none,
    riskFactors := some [], recommendations := none, alertLevel := none }

theorem jsLookup_mapSet_self {α : Type} (m : List (String × α)) (k : String) (v : α) :
    jsLookup (mapSet m k v) k = some v := by
  induction m with
  | nil => simp [mapSet, jsLookup]
  | cons hd tl ih =>
    obtain ⟨k', v'⟩ := hd
    by_cases h : k' = k
    · simp [mapSet, h, jsLookup]
    · simp [mapSet, h, jsLookup, ih]

theorem jsLookup_append {α : Type} (l₁ l₂ : List (String × α)) (k : String) :
    jsLookup (l₁ ++ l₂) k = (jsLookup l₁ k).orElse (fun _ => jsLookup l₂ k) := by
  induction l₁ with
  | nil => simp [jsLookup]
  | cons hd tl ih =>
    obtain ⟨k', v'⟩ := hd
    by_cases h : k' = k
    · simp [jsLookup, h]
    · simp [jsLookup, h, ih]

theorem jsLookup_overridden (b e : List (String × ℚ)) (k : String) :
    jsLookup (b.map (fun kv => (kv.1, (jsLookup e kv.1).getD kv.2))) k
      = (jsLookup b k).map (fun v => (jsLookup e k).getD v) := by
  induction b with
  | nil => simp [jsLookup]
  | cons hd tl ih =>
    obtain ⟨k', v'⟩ := hd
    by_cases h : k' = k
    · subst h; simp [jsLookup]
    · simp [jsLookup, h, ih]

theorem jsLookup_filter_new (b e : List (String × ℚ)) (k : String)
    (hnone : jsLookup b k = none) :
    jsLookup (e.filter (fun kv => (jsLookup b kv.1).isNone)) k = jsLookup e k := by
  induction e with
  | nil => simp
  | cons hd tl ih =>
    obtain ⟨k₀, v₀⟩ := hd
    by_cases h : k₀ = k
    · subst h; simp [List.filter, hnone, jsLookup]
    · by_cases hg : (jsLookup b k₀).isNone
      · simp [List.filter, hg, jsLookup, h, ih]
      · simp [List.filter, hg, jsLookup, h, ih]

theorem jsLookup_jsUnion (b e : List (String × ℚ)) (k : String) :
    jsLookup (jsUnion b e) k = match jsLookup b k with
      | some v => some ((jsLookup e k).getD v)
      | none => jsLookup e k := by
  unfold jsUnion
  rw [jsLookup_append, jsLookup_overridden]
  cases h : jsLookup b k with
  | none => simp [Option.orElse, jsLookup_filter_new b e k h]
  | some v => simp [Option.orElse]

theorem defaultRiskFactors_lookup_eq_zero (k : String) (v : ℚ)
    (h : jsLookup defaultRiskFactors k = some v) : v = 0 := by
  simp only [defaultRiskFactors, jsLookup] at h
  split_ifs at h <;> simp_all

theorem profileTotal_profilesAfterLookup (st : EngineState) (uid nowIso : String) :
    profileTotal (profilesAfterLookup st uid nowIso) uid
      = profileTotal st.userRiskProfiles uid := by
  unfold profilesAfterLookup profileTotal
  cases h : jsLookup st.userRiskProfiles uid with
  | some p => simp [h]
  | none => simp [h, jsLookup_mapSet_self, createUserProfile]

theorem updateUserProfile_fields (uid : String) (t : Transaction) (a : RiskAnalysis)
    (nowIso : String) (m : List (String × UserProfile)) :
    profileTotal (updateUserProfile uid t a nowIso m) uid = profileTotal m uid + 1
    ∧ profileSusp (updateUserProfile uid t a nowIso m) uid
        = profileSusp m uid + (if a.riskScore > 70 then 1 else 0)
    ∧ profileSticky (updateUserProfile uid t a nowIso m) uid
        = (profileSticky m uid || decide (a.riskScore > 70))
    ∧ profileLevel (updateUserProfile uid t a nowIso m) uid
        = (if (profileSusp (updateUserProfile uid t a nowIso m) uid : ℚ)
              / (profileTotal (updateUserProfile uid t a nowIso m) uid : ℚ) > 0.3 then "HIGH"
           else if (profileSusp (updateUserProfile uid t a nowIso m) uid : ℚ)
              / (profileTotal (updateUserProfile uid t a nowIso m) uid : ℚ) > 0.1 then "MEDIUM"
           else "LOW") := by
  unfold updateUserProfile profileTotal profileSusp profileSticky profileLevel
  cases h : jsLookup m uid with
  | some p => simp [h, jsLookup_mapSet_self]; split_ifs <;> simp_all
  | none => simp [h, jsLookup_mapSet_self, createUserProfile]; split_ifs <;> simp_all

theorem profileSusp_le_total_applyOutcomes (uid : String) (t : Transaction)
    (nowIso : String) :
    ∀ (as : List RiskAnalysis) (m : List (String × UserProfile)),
    profileSusp m uid ≤ profileTotal m uid →
    profileSusp (applyOutcomes uid t nowIso as m) uid
      ≤ profileTotal (applyOutcomes uid t nowIso as m) uid := by
  intro as
  induction as with
  | nil => intro m hm; simpa [applyOutcomes] using hm
  | cons a as ih =>
    intro m hm
    have hstep := updateUserProfile_fields uid t a nowIso m
    have hnext : profileSusp (updateUserProfile uid t a nowIso m) uid
        ≤ profileTotal (updateUserProfile uid t a nowIso m) uid := by
      rw [hstep.1, hstep.2.1]; split_ifs <;> omega
    simpa [applyOutcomes] using ih (updateUserProfile uid t a nowIso m) hnext

/-- C4 (counterexample): recording riskScore 90 for a key's first occurrence
yields avgRisk 45, not 90 as the claim states — the running average starts
from the initial object `avgRisk: 0`, so the first record stores
(0 + 90) / 2 = 45. -/
theorem updateFraudPatterns_first_occurrence_cex :
    jsLookup (updateFraudPatterns tCasino (mkVerdict 90) "t1" []) (patternKey tCasino)
      = some { count := 1, avgRisk := 45, lastSeen := "t1" }
    ∧ (45 : ℚ) ≠ 90 := by
  with_unfolding_all decide

/-- C4 (amended): FraudPatternCache.record is a no-op unless riskScore > 80;
a key's first occurrence yields count 1 and avgRisk riskScore / 2 (the running
average starts from 0), each subsequent one count + 1 and
avgRisk = (previous avgRisk + riskScore) / 2; recording 90 then 100 yields
avgRisk 72.5 and count 2, and a third record at 50 is a no-op (50 ≤ 80). -/
theorem updateFraudPatterns_characterization :
    (∀ (t : Transaction) (a : RiskAnalysis) (nowIso : String)
      (ps : List (String × FraudPatternEntry)),
      updateFraudPatterns t a nowIso ps =
        (if a.riskScore > 80 then
          mapSet ps (patternKey t)
            { count := ((jsLookup ps (patternKey t)).getD
                { count := 0, avgRisk := 0, lastSeen := "" }).count + 1
              avgRisk := (((jsLookup ps (patternKey t)).getD
                { count := 0, avgRisk := 0, lastSeen := "" }).avgRisk + a.riskScore) / 2
              lastSeen := nowIso }
        else ps))
    ∧ (jsLookup
        (updateFraudPatterns tCasino (mkVerdict 100) "t2"
          (updateFraudPatterns tCasino (mkVerdict 90) "t1" [])) (patternKey tCasino)
        = some { count := 2, avgRisk := 72.5, lastSeen := "t2" })
    ∧ (updateFraudPatterns tCasino (mkVerdict 50) "t3"
        (updateFraudPatterns tCasino (mkVerdict 100) "t2"
          (updateFraudPatterns tCasino (mkVerdict 90) "t1" []))
      = updateFraudPatterns tCasino (mkVerdict 100) "t2"
          (updateFraudPatterns tCasino (mkVerdict 90) "t1" [])) := by
  refine ⟨fun t a nowIso ps => rfl, ?_, ?_⟩ <;> with_unfolding_all decide

/-- C5 (counterexample): a riskFactors key outside the seven named ones
supplied by the oracle leaks through the merge, contradicting the claim
that no key outside the seven appears in the result. -/
theorem riskFactors_extra_key_cex :
    jsLookup (jsUnion defaultRiskFactors [("ExtraFactor", 5)]) "ExtraFactor" = some 5
    ∧ jsLookup defaultRiskFactors "ExtraFactor" = none := by
  with_unfolding_all decide

/-- C5 (amended): for every partial riskFactors map from the oracle, each of
the seven default keys is present in the merged map, with the oracle's value
where supplied and 0 where omitted; keys outside the seven are passed
through unchanged (present with the oracle's value, absent otherwise). -/
theorem riskFactors_merge_characterization :
    ∀ (m : List (String × ℚ)) (k : String),
      jsLookup (jsUnion defaultRiskFactors m) k =
        (if (jsLookup defaultRiskFactors k).isSome then some ((jsLookup m k).getD 0)
         else jsLookup m k) := by
  intro m k
  rw [jsLookup_jsUnion]
  cases h : jsLookup defaultRiskFactors k with
  | none => simp [h]
  | some v =>
    have hv := defaultRiskFactors_lookup_eq_zero k v h
    subst hv
    simp [h]

/-- C6 (counterexample): a parseable reply with riskScore 50 (a number in
range) and status Approved but no summary property meets the claim's three
acceptance conditions yet is rejected by `isValidAnalysis`. -/
theorem isValidAnalysis_missing_summary_cex :
    specAcceptsReply rNoSummary = true ∧ isValidAnalysis rNoSummary = false := by
  with_unfolding_all decide

/-- C6 (amended): a reply is accepted iff it is parseable, riskScore is a
number in [0, 100], status is among the three allowed values, AND the
summary and riskFactors properties are also present. -/
theorem isValidAnalysis_characterization :
    ∀ r : OracleReply,
      isValidAnalysis r
        = (specAcceptsReply r && r.summary.isSome && r.riskFactors.isSome) := by
  intro r
  obtain ⟨rs, sm, stt, cf, rf, rc, al⟩ := r
  simp only [isValidAnalysis, specAcceptsReply]
  cases rs with
  | none => simp
  | some jv =>
    cases jv <;> cases stt <;> (try simp) <;>
      cases sm <;> cases rf <;> simp_all [Bool.and_assoc, Bool.and_comm, Bool.and_left_comm]

/-- C8 (counterexample): on the claimed scenario (amount 2500, merchant
Best Buy, empty history, hour 14, oracle failure forced) the fallback
verdict's riskScore is 35, not 20: amount 2500 > 1000 adds 15 to the base 20. -/
theorem fallback_bestbuy_riskscore_cex :
    (performFraudAnalysis tBestBuy 14 0 env0 .transportError st0).1.riskScore ≠ 20 := by
  with_unfolding_all decide

/-- C8 (amended): for amount 2500, merchant Best Buy, empty history and hour
14, the fallback path yields riskScore 35 (base 20 plus 15 for
amount > 1000), status Approved, and fallback true. -/
theorem fallback_bestbuy_scenario :
    (performFraudAnalysis tBestBuy 14 0 env0 .transportError st0).1.riskScore = 35
    ∧ (performFraudAnalysis tBestBuy 14 0 env0 .transportError st0).1.status = "Approved"
    ∧ (performFraudAnalysis tBestBuy 14 0 env0 .transportError st0).1.fallback = true := by
  with_unfolding_all decide

/-- C10: the stats computation is total and guarded: on an empty ledger the
transaction count, all three per-status counts, the average risk score and
the distinct-user count are all 0 — the mean is guarded by an emptiness
check rather than dividing by zero. -/
theorem computeStats_empty_ledger :
    ∀ (patterns : List (String × FraudPatternEntry))
      (profiles : List (String × UserProfile)),
      (computeStats ⟨[], patterns, profiles⟩).totalTransactions = 0
      ∧ (computeStats ⟨[], patterns, profiles⟩).approvedTransactions = 0
      ∧ (computeStats ⟨[], patterns, profiles⟩).flaggedTransactions = 0
      ∧ (computeStats ⟨[], patterns, profiles⟩).deniedTransactions = 0
      ∧ (computeStats ⟨[], patterns, profiles⟩).averageRiskScore = 0
      ∧ (computeStats ⟨[], patterns, profiles⟩).uniqueUsers = 0 := by
  intro patterns profiles
  exact ⟨rfl, rfl, rfl, rfl, rfl, rfl⟩

/-- C7: the fallback scorer is a pure function of (amount, merchant, hour):
riskScore is min of 100 and 20 plus the amount, off-hours and risky-merchant
adjustments, status follows the 70/40 thresholds on the returned riskScore,
confidence is fixed at 75, and the verdict depends on no transaction field
other than amount and merchant; amount 6000, merchant Casino Royale, hour 2
yields riskScore 100, status Denied, alertLevel HIGH. -/
theorem generateFallbackAnalysis_formula :
    (∀ (t : Transaction) (hour : ℕ),
      (generateFallbackAnalysis t hour).riskScore =
        min ((20 : ℚ) + (if t.amount > 5000 then 30 else if t.amount > 1000 then 15 else 0)
          + (if hour < 6 ∨ hour > 22 then 20 else 0)
          + (if merchantHasRisk t.merchant fallbackRiskMerchants then 40 else 0)) 100
      ∧ (generateFallbackAnalysis t hour).status =
          (if (generateFallbackAnalysis t hour).riskScore > 70 then "Denied"
           else if (generateFallbackAnalysis t hour).riskScore > 40 then "Flagged"
           else "Approved")
      ∧ (generateFallbackAnalysis t hour).confidence = some (.num 75)
      ∧ generateFallbackAnalysis t hour
          = generateFallbackAnalysis ⟨t.amount, "", t.merchant, "", "", "", 0⟩ hour)
    ∧ ((generateFallbackAnalysis tCasino 2).riskScore = 100
      ∧ (generateFallbackAnalysis tCasino 2).status = "Denied"
      ∧ (generateFallbackAnalysis tCasino 2).alertLevel = some (.str "HIGH")) := by
  constructor
  · intro t hour
    refine ⟨?_, ?_, rfl, rfl⟩
    · by_cases h1 : t.amount > 5000 <;> by_cases h2 : t.amount > 1000 <;>
        by_cases h3 : hour < 6 ∨ hour > 22 <;>
        by_cases h4 : merchantHasRisk t.merchant fallbackRiskMerchants = true <;>
        simp [generateFallbackAnalysis, h1, h2, h3, h4]
    · by_cases h1 : t.amount > 5000 <;> by_cases h2 : t.amount > 1000 <;>
        by_cases h3 : hour < 6 ∨ hour > 22 <;>
        by_cases h4 : merchantHasRisk t.merchant fallbackRiskMerchants = true <;>
        simp [generateFallbackAnalysis, h1, h2, h3, h4, min_def] <;> norm_num
  · with_unfolding_all decide

/-- C1: for a structurally valid transaction, analysis always produces a
verdict and never propagates an error: either the try body succeeds with the
enhanced oracle verdict, or it fails (transport, parse or validation) and
the returned verdict is the fallback scorer's. -/
theorem performFraudAnalysis_never_fails
    (t : Transaction) (hour : ℕ) (nowMs : ℤ) (env : AnalysisEnv)
    (oracle : OracleOutcome) (st : EngineState)
    (_hv : validTransaction t = true) :
    (∃ v, performFraudAnalysisTry t hour nowMs env oracle st = .ok v
        ∧ performFraudAnalysis t hour nowMs env oracle st = v)
    ∨ ((∃ e, performFraudAnalysisTry t hour nowMs env oracle st = .error e)
        ∧ (performFraudAnalysis t hour nowMs env oracle st).1
            = generateFallbackAnalysis t hour) := by
  cases htry : performFraudAnalysisTry t hour nowMs env oracle st with
  | ok v => exact Or.inl ⟨v, rfl, by simp [performFraudAnalysis, htry]⟩
  | error e => exact Or.inr ⟨⟨e, rfl⟩, by simp [performFraudAnalysis, htry]⟩

/-- C1 (witness): the theorem applied to a concrete valid transaction and a
forced oracle transport failure. -/
theorem performFraudAnalysis_never_fails_witness :
    validTransaction tBestBuy = true
    ∧ ((∃ v, performFraudAnalysisTry tBestBuy 14 0 env0 .transportError st0 = .ok v
          ∧ performFraudAnalysis tBestBuy 14 0 env0 .transportError st0 = v)
      ∨ ((∃ e, performFraudAnalysisTry tBestBuy 14 0 env0 .transportError st0 = .error e)
          ∧ (performFraudAnalysis tBestBuy 14 0 env0 .transportError st0).1
              = generateFallbackAnalysis tBestBuy 14)) :=
  ⟨by with_unfolding_all decide,
   performFraudAnalysis_never_fails tBestBuy 14 0 env0 .transportError st0
     (by with_unfolding_all decide)⟩

/-- C2 (counterexample): on the fallback path the stores are NOT updated:
with an empty state, a casino transaction at hour 2 and a forced oracle
failure, the fallback riskScore is 100 (> 70 and > 80), yet the user's
profile keeps totalTransactions 0 and the fraud-pattern store stays empty. -/
theorem fallback_path_skips_store_updates_cex :
    (performFraudAnalysis tCasino 2 0 env0 .transportError st0).1.riskScore = 100
    ∧ profileTotal
        (performFraudAnalysis tCasino 2 0 env0 .transportError st0).2.userRiskProfiles
        "user999" = 0
    ∧ (performFraudAnalysis tCasino 2 0 env0 .transportError st0).2.fraudPatterns = [] := by
  with_unfolding_all decide

/-- C2 (amended): the profile and pattern stores are updated only on the
oracle-success path: totalTransactions grows by one and updateFraudPatterns
runs exactly when the oracle reply is accepted; on the fallback path both
stores keep their observable content (at most a zero-count profile is
lazily created) and the returned verdict is the unenhanced fallback one
(its fallback flag is set). -/
theorem store_updates_only_on_oracle_success :
    ∀ (t : Transaction) (hour : ℕ) (nowMs : ℤ) (env : AnalysisEnv)
      (oracle : OracleOutcome) (st : EngineState),
      profileTotal
          (performFraudAnalysis t hour nowMs env oracle st).2.userRiskProfiles t.userId
        = profileTotal st.userRiskProfiles t.userId
          + (if oracleAccepted oracle then 1 else 0)
      ∧ (performFraudAnalysis t hour nowMs env oracle st).2.fraudPatterns
        = (if oracleAccepted oracle then
            updateFraudPatterns t (performFraudAnalysis t hour nowMs env oracle st).1
              env.nowIso st.fraudPatterns
          else st.fraudPatterns)
      ∧ (performFraudAnalysis t hour nowMs env oracle st).1.fallback
        = !(oracleAccepted oracle) := by
  intro t hour nowMs env oracle st
  cases oracle with
  | transportError =>
    refine ⟨?_, rfl, rfl⟩
    simp [performFraudAnalysis, performFraudAnalysisTry, oracleAccepted,
      profileTotal_profilesAfterLookup]
  | unparseable =>
    refine ⟨?_, rfl, rfl⟩
    simp [performFraudAnalysis, performFraudAnalysisTry, oracleAccepted,
      profileTotal_profilesAfterLookup]
  | reply r =>
    by_cases h : isValidAnalysis r = true
    · refine ⟨?_, ?_, ?_⟩ <;>
        simp [performFraudAnalysis, performFraudAnalysisTry, oracleAccepted, h,
          (updateUserProfile_fields t.userId t _ env.nowIso _).1,
          profileTotal_profilesAfterLookup, enhanceAnalysis]
    · refine ⟨?_, ?_, ?_⟩ <;>
        simp [performFraudAnalysis, performFraudAnalysisTry, oracleAccepted, h,
          profileTotal_profilesAfterLookup, generateFallbackAnalysis]

/-- C3 (counterexample): a verdict returned via the fallback path carries
none of the enhancer's metadata: no timestamp, no transactionId, no
processingTime, no version marker and no embedded preAnalysisRisk. -/
theorem fallback_verdict_missing_metadata_cex :
    (performFraudAnalysis tBestBuy 14 0 env0 .transportError st0).1.timestamp = none
    ∧ (performFraudAnalysis tBestBuy 14 0 env0 .transportError st0).1.transactionId = none
    ∧ (performFraudAnalysis tBestBuy 14 0 env0 .transportError st0).1.processingTime = none
    ∧ (performFraudAnalysis tBestBuy 14 0 env0 .transportError st0).1.version = none
    ∧ (performFraudAnalysis tBestBuy 14 0 env0 .transportError st0).1.preAnalysisRisk
        = none := by
  with_unfolding_all decide

/-- C3 (amended): only verdicts produced from an accepted oracle reply pass
through the enhancer and therefore carry the timestamp, the TXN-prefixed
transactionId with time and random suffix, the processingTime, the schema
version marker and the embedded preAnalysisRisk snapshot; fallback verdicts
carry none of these. -/
theorem enhanced_verdict_carries_metadata
    (t : Transaction) (hour : ℕ) (nowMs : ℤ) (env : AnalysisEnv)
    (r : OracleReply) (st : EngineState) (h : isValidAnalysis r = true) :
    (performFraudAnalysis t hour nowMs env (.reply r) st).1.timestamp = some env.nowIso
    ∧ (performFraudAnalysis t hour nowMs env (.reply r) st).1.transactionId
        = some ("TXN-" ++ toString env.nowMs ++ "-" ++ env.randSuffix)
    ∧ (performFraudAnalysis t hour nowMs env (.reply r) st).1.processingTime
        = some (env.randDraw * 500 + 100)
    ∧ (performFraudAnalysis t hour nowMs env (.reply r) st).1.version = some "2.1"
    ∧ ((performFraudAnalysis t hour nowMs env (.reply r) st).1.preAnalysisRisk).isSome
        = true := by
  refine ⟨?_, ?_, ?_, ?_, ?_⟩ <;>
    simp [performFraudAnalysis, performFraudAnalysisTry, h, enhanceAnalysis,
      generateTransactionId]

/-- C3 (witness): the metadata theorem applied to a concrete valid reply. -/
theorem enhanced_verdict_carries_metadata_witness :
    isValidAnalysis rValid = true
    ∧ ((performFraudAnalysis tBestBuy 14 0 env0 (.reply rValid) st0).1.timestamp
          = some env0.nowIso
      ∧ (performFraudAnalysis tBestBuy 14 0 env0 (.reply rValid) st0).1.transactionId
          = some ("TXN-" ++ toString env0.nowMs ++ "-" ++ env0.randSuffix)
      ∧ (performFraudAnalysis tBestBuy 14 0 env0 (.reply rValid) st0).1.processingTime
          = some (env0.randDraw * 500 + 100)
      ∧ (performFraudAnalysis tBestBuy 14 0 env0 (.reply rValid) st0).1.version
          = some "2.1"
      ∧ ((performFraudAnalysis tBestBuy 14 0 env0 (.reply rValid) st0).1.preAnalysisRisk).isSome
          = true) :=
  ⟨by with_unfolding_all decide,
   enhanced_verdict_carries_metadata tBestBuy 14 0 env0 rValid st0
     (by with_unfolding_all decide)⟩

/-- C9: after every sequence of recorded outcomes for a user and one more
recorded outcome, the profile invariants hold: totalTransactions grows by
exactly one (so it is non-decreasing), suspiciousTransactions grows exactly
when riskScore > 70 and never exceeds totalTransactions, the suspicious
flag is sticky, and riskLevel follows the 0.3 / 0.1 ratio thresholds. -/
theorem updateUserProfile_invariants :
    ∀ (uid : String) (t : Transaction) (nowIso : String)
      (as : List RiskAnalysis) (a : RiskAnalysis),
      profileTotal (updateUserProfile uid t a nowIso (applyOutcomes uid t nowIso as [])) uid
        = profileTotal (applyOutcomes uid t nowIso as []) uid + 1
      ∧ profileSusp (updateUserProfile uid t a nowIso (applyOutcomes uid t nowIso as [])) uid
        = profileSusp (applyOutcomes uid t nowIso as []) uid
          + (if a.riskScore > 70 then 1 else 0)
      ∧ profileSusp (updateUserProfile uid t a nowIso (applyOutcomes uid t nowIso as [])) uid
        ≤ profileTotal (updateUserProfile uid t a nowIso (applyOutcomes uid t nowIso as [])) uid
      ∧ profileSticky (updateUserProfile uid t a nowIso (applyOutcomes uid t nowIso as [])) uid
        = (profileSticky (applyOutcomes uid t nowIso as []) uid || decide (a.riskScore > 70))
      ∧ profileLevel (updateUserProfile uid t a nowIso (applyOutcomes uid t nowIso as [])) uid
        = (if (profileSusp (updateUserProfile uid t a nowIso (applyOutcomes uid t nowIso as [])) uid : ℚ)
              / (profileTotal (updateUserProfile uid t a nowIso (applyOutcomes uid t nowIso as [])) uid : ℚ)
              > 0.3 then "HIGH"
           else if (profileSusp (updateUserProfile uid t a nowIso (applyOutcomes uid t nowIso as [])) uid : ℚ)
              / (profileTotal (updateUserProfile uid t a nowIso (applyOutcomes uid t nowIso as [])) uid : ℚ)
              > 0.1 then "MEDIUM"
           else "LOW") := by
  intro uid t nowIso as a
  have hm : profileSusp (applyOutcomes uid t nowIso as []) uid
      ≤ profileTotal (applyOutcomes uid t nowIso as []) uid :=
    profileSusp_le_total_applyOutcomes uid t nowIso as []
      (by simp [profileSusp, profileTotal, jsLookup])
  have hf := updateUserProfile_fields uid t a nowIso (applyOutcomes uid t nowIso as [])
  refine ⟨hf.1, hf.2.1, ?_, hf.2.2.1, hf.2.2.2⟩
  rw [hf.1, hf.2.1]
  split_ifs <;> omega

end FraudServer
